import Mathlib

/-!
# Verification of the long-term LGAD test setup controller

Shallow embedding of the safety-interlocked setup controller
(`TheSetup.py`), its slot-table validation, and the reconciliation
daemon's run/stop decision loop (`daemon.py`).

Temperatures, voltages and humidities are modelled as rationals
(`ℚ`): the Python code uses floats only for ordering comparisons and
exact constants, never for rounding-sensitive arithmetic, so exact
arithmetic is a faithful model of every comparison involved.
Measured bias voltages are assumed to track the set values, as the
claims stipulate; the slot voltages stored in the state stand for
both.
-/

namespace LgadSetup

/-- `TheSetup.MAX_OPERATING_TEMPERATURE = -18` (°C). -/
def MAX_OPERATING_TEMPERATURE : ℚ := -18

/-- `TheSetup.UNBIASED_VOLTAGE_THRESHOLD = 5` (V). -/
def UNBIASED_VOLTAGE_THRESHOLD : ℚ := 5

/-- `TheSetup.NORMAL_OPERATING_TEMPERATURE = -20` (°C). -/
def NORMAL_OPERATING_TEMPERATURE : ℚ := -20

/-- The five values the `status` property can return. -/
inductive Status where
  | notRunning
  | readyToOperate
  | coolingDown
  | warm
  | error
  deriving DecidableEq, Repr

/-- The error conditions the controller signals by raising exceptions.
The two `RuntimeError`s in `set_bias_voltage` and the one in the
`temperature_set_point` setter are the spec's `InterlockViolation`;
the `ValueError` of `_check_slot_name` is `UnknownSlot`; the
`RuntimeError` guarding `start` is `InvalidTransition`; the two
`TimeoutError`s in `start` are `Timeout` (they carry the elapsed time
at which the exception is observed, which in the source is observable
as the wall-clock moment the exception is raised); the two status
re-checks in `start` are `InvariantViolation`. -/
inductive SetupError where
  | interlockViolation
  | unknownSlot
  | invalidTransition
  | humidityTimeout (elapsed : ℚ)
  | coolingTimeout (elapsed : ℚ)
  | invariantViolation
  deriving DecidableEq, Repr

/-- The observable hardware state behind `TheSetup`: the climate
chamber (running flag, set-point, dryer, compressed air), the ambient
sensor's temperature reading, and the bias voltage of each slot as an
association list keyed by slot name (`_caen_outputs_per_slot`).
Humidity readings during `start` are passed separately, as traces. -/
structure SetupState where
  isRunning : Bool
  temperature : ℚ
  setPoint : ℚ
  dryer : Bool
  compressedAir : Bool
  volts : List (String × ℚ)
  deriving DecidableEq, Repr

/-- `TheSetup.slots_names` (as a list rather than a set; only
membership is ever used). -/
def slots_names (s : SetupState) : List String :=
  s.volts.map Prod.fst

/-- One slot's biased test, from `_is_any_slot_biased`: the source
computes `(v**2)**.5 > UNBIASED_VOLTAGE_THRESHOLD`; over the reals
`(v^2)^(1/2) = |v|`, so the test is `|v| > 5`. -/
def slotBiased (v : ℚ) : Bool :=
  decide (UNBIASED_VOLTAGE_THRESHOLD < |v|)

/-- `TheSetup._is_any_slot_biased`. -/
def is_any_slot_biased (s : SetupState) : Bool :=
  s.volts.any (fun p => slotBiased p.2)

/-- The decision tree of the `status` property as a function of the
four quantities it reads: chamber running flag, measured temperature,
chamber set-point, and the aggregate biased test. -/
def statusFrom (running : Bool) (temperature setPoint : ℚ) (anyBiased : Bool) :
    Status :=
  if running = false then .notRunning
  else if setPoint < MAX_OPERATING_TEMPERATURE then
    if temperature < MAX_OPERATING_TEMPERATURE then .readyToOperate
    else if anyBiased then .error
    else .coolingDown
  else if anyBiased then .error
  else .warm

/-- `TheSetup.status`. -/
def status (s : SetupState) : Status :=
  statusFrom s.isRunning s.temperature s.setPoint (is_any_slot_biased s)

/-- Assignment `V_set = volt` on the channel of slot `name`. -/
def updateVolts (name : String) (v : ℚ) (volts : List (String × ℚ)) :
    List (String × ℚ) :=
  volts.map (fun p => if p.1 = name then (p.1, v) else p)

/-- `TheSetup.set_bias_voltage(slot_name, volt)`.  Note the source
compares the signed voltage: `if volt > self.UNBIASED_VOLTAGE_THRESHOLD`.
Slot-name validation (`_get_CAEN_for_` → `_check_slot_name`) happens
only at the final forwarding line.  On an exception the state is
returned unchanged, as in the source every `raise` precedes the single
hardware write. -/
def set_bias_voltage (name : String) (v : ℚ) (s : SetupState) :
    Option SetupError × SetupState :=
  if UNBIASED_VOLTAGE_THRESHOLD < v then
    if status s ≠ Status.readyToOperate then (some .interlockViolation, s)
    else if MAX_OPERATING_TEMPERATURE < s.temperature then
      (some .interlockViolation, s)
    else if name ∈ slots_names s then
      (none, { s with volts := updateVolts name v s.volts })
    else (some .unknownSlot, s)
  else if name ∈ slots_names s then
    (none, { s with volts := updateVolts name v s.volts })
  else (some .unknownSlot, s)

/-- The `temperature_set_point` property setter. -/
def set_temperature_set_point (celsius : ℚ) (s : SetupState) :
    Option SetupError × SetupState :=
  if MAX_OPERATING_TEMPERATURE < celsius ∧ is_any_slot_biased s = true then
    (some .interlockViolation, s)
  else (none, { s with setPoint := celsius })

/-- Result of one of `start`'s polling loops. `outOfFuel` is an
artefact of bounding the recursion; the fuel chosen in `start` is
proved sufficient (`dryLoopAux_ne_outOfFuel`), so it never occurs. -/
inductive LoopResult where
  | finished (k : ℕ)
  | timedOut (elapsed : ℚ)
  | outOfFuel
  deriving DecidableEq, Repr

/-- Fuel bound for a loop that advances elapsed time by 11 s per
iteration and stops once elapsed time exceeds `t`: one unit of fuel
per loop-condition evaluation, provably sufficient
(`lt_loopFuel_bound`). -/
def loopFuel (t : ℚ) : ℕ := t.num.toNat + 2

/-- The humidity-drying loop of `start`:
`while self.humidity > pct: sleep(11); if elapsed > timeout: raise`.
`hum k` is the `k`-th humidity reading (the `k`-th evaluation of the
loop condition); after the `k`-th iteration's sleep the elapsed time
is `11 * (k+1)` seconds. -/
def dryLoopAux (hum : ℕ → ℚ) (pct timeout : ℚ) : ℕ → ℕ → ℚ → LoopResult
  | 0, _, _ => .outOfFuel
  | fuel + 1, k, elapsed =>
    if hum k ≤ pct then .finished k
    else if timeout < elapsed + 11 then .timedOut (elapsed + 11)
    else dryLoopAux hum pct timeout fuel (k + 1) (elapsed + 11)

/-- The cooling loop of `start`:
`while self.status == 'cooling down': sleep(11); if elapsed > timeout: raise`.
During the loop the chamber runs with a fixed set-point `sp` and the
slot voltages are unchanged (aggregate biased test `b`); only the
temperature reading varies, `temp j` being the `j`-th sensor read
(read 0 is consumed by the status check preceding the loop, so the
loop conditions start at `j = 1`).  The `time.sleep(1)` before the
loop makes the elapsed time after the `j`-th iteration `1 + 11 * j`. -/
def coolLoopAux (temp : ℕ → ℚ) (b : Bool) (sp timeout : ℚ) : ℕ → ℕ → ℚ → LoopResult
  | 0, _, _ => .outOfFuel
  | fuel + 1, j, elapsed =>
    if statusFrom true (temp j) sp b ≠ Status.coolingDown then .finished j
    else if timeout < elapsed + 11 then .timedOut (elapsed + 11)
    else coolLoopAux temp b sp timeout fuel (j + 1) (elapsed + 11)

/-- The loop `for slot_name in self.slots_names: self.set_bias_voltage(slot_name, 0)`
of `start`, threading any raised exception. -/
def zeroAllSlots (s : SetupState) : List String → Option SetupError × SetupState
  | [] => (none, s)
  | n :: ns =>
    match set_bias_voltage n 0 s with
    | (none, s') => zeroAllSlots s' ns
    | (some e, s') => (some e, s')

/-- `TheSetup.start(humidity_before_cooling_down_percentage,
humidity_timeout_seconds, cooling_down_timeout_seconds)`.

`hum` and `temp` are the traces of humidity and temperature sensor
readings consumed while `start` runs (the state's `temperature` field
is the reading current at entry; the dry loop reads only humidity, the
cooling phase only temperature).  The sequence mirrors the source:
status precondition, dryer and compressed air on, set-point to 20 °C
through the interlocked setter, zero all slots, start the chamber, dry
until the humidity is at or below `pct` or `timeoutH` is exceeded,
set-point to `NORMAL_OPERATING_TEMPERATURE`, check status is
cooling-down, cool until the status leaves cooling-down or `timeoutC`
is exceeded, check status is ready-to-operate.  The integer type
validation of the three arguments is subsumed by the types of the
embedding. -/
def start (hum temp : ℕ → ℚ) (pct timeoutH timeoutC : ℚ) (s : SetupState) :
    Option SetupError × SetupState :=
  if status s ≠ Status.notRunning then (some .invalidTransition, s)
  else
    match set_temperature_set_point 20 { s with dryer := true, compressedAir := true } with
    | (some e, s2) => (some e, s2)
    | (none, s2) =>
      match zeroAllSlots s2 (slots_names s2) with
      | (some e, s3) => (some e, s3)
      | (none, s3) =>
        match dryLoopAux hum pct timeoutH (loopFuel timeoutH) 0 0 with
        | .timedOut e => (some (.humidityTimeout e), { s3 with isRunning := true })
        | .outOfFuel => (some (.humidityTimeout 0), { s3 with isRunning := true })
        | .finished _ =>
          match set_temperature_set_point NORMAL_OPERATING_TEMPERATURE
              { s3 with isRunning := true } with
          | (some e, s5) => (some e, s5)
          | (none, s5) =>
            if statusFrom true (temp 0) s5.setPoint (is_any_slot_biased s5) ≠
                Status.coolingDown then
              (some .invariantViolation, s5)
            else
              match coolLoopAux temp (is_any_slot_biased s5) s5.setPoint timeoutC
                  (loopFuel timeoutC) 1 1 with
              | .timedOut e => (some (.coolingTimeout e), s5)
              | .outOfFuel => (some (.coolingTimeout 0), s5)
              | .finished j =>
                if statusFrom true (temp (j + 1)) s5.setPoint (is_any_slot_biased s5) ≠
                    Status.readyToOperate
                then (some .invariantViolation, s5)
                else (none, s5)

/-! ## Slot-table validation (`check_integrity_of_slots_df`) -/

/-- One row of the slots configuration table.  The source's first
check — that the column set is exactly {Slot name, CAEN model name,
CAEN serial number, CAEN channel number} — is subsumed by this record
type; the remaining four checks are modelled below. -/
structure SlotRow where
  slotName : String
  modelName : String
  serialNumber : String
  channelNumber : ℤ
  deriving DecidableEq, Repr

/-- The string the source builds for the duplicate check:
`model + ',' + serial + ',' + str(channel)`. -/
def rowKey (r : SlotRow) : String :=
  r.modelName ++ "," ++ r.serialNumber ++ "," ++ toString r.channelNumber

/-- `check_integrity_of_slots_df(slots_df)` accepts (returns without
raising) exactly when these four conditions hold. -/
def check_integrity_of_slots_df (rows : List SlotRow) : Prop :=
  (rows.map SlotRow.modelName).toFinset = {"DT1419ET", "DT1470ET"} ∧
  (rows.map SlotRow.serialNumber).toFinset = {"139", "13398"} ∧
  (rows.map SlotRow.channelNumber).toFinset = {0, 1, 2, 3} ∧
  (rows.map rowKey).dedup.length = 8

/-- Modelled from the spec's words (for the refinement comparison of
claim C8 only): the table "exactly partitions the 8 known physical
channels" — every (model, serial, channel) triple unique across rows,
no two slots sharing a physical channel (a (serial, channel) pair,
since the constructor wires slots to supplies by serial number),
every referenced provider among the known serial numbers, and each of
the two supplies carrying exactly the channel set {0,1,2,3}. -/
def slots_partition_spec (rows : List SlotRow) : Prop :=
  (rows.map (fun r => (r.modelName, r.serialNumber, r.channelNumber))).Nodup ∧
  (rows.map (fun r => (r.serialNumber, r.channelNumber))).Nodup ∧
  (∀ r ∈ rows, r.serialNumber ∈ ({"139", "13398"} : Finset String)) ∧
  (∀ srl ∈ ({"139", "13398"} : Finset String),
    ((rows.filter (fun r => r.serialNumber = srl)).map
      SlotRow.channelNumber).toFinset = {0, 1, 2, 3})

instance (rows : List SlotRow) : Decidable (check_integrity_of_slots_df rows) := by
  unfold check_integrity_of_slots_df
  infer_instance

instance (rows : List SlotRow) : Decidable (slots_partition_spec rows) := by
  unfold slots_partition_spec
  infer_instance

/-! ## Daemon run/stop decision loop (`start_stop_test_thread_function`) -/

/-- The three values `check_what_to_do_config` can return. -/
inductive WhatToDo where
  | runTest
  | stopTest
  | undefinedIntent
  deriving DecidableEq, Repr

/-- `check_what_to_do_config`: the `setup.run` marker file is checked
first, so it takes precedence when both files are present. -/
def check_what_to_do_config (runFile stopFile : Bool) : WhatToDo :=
  if runFile then .runTest
  else if stopFile then .stopTest
  else .undefinedIntent

/-- What one tick of the run/stop loop does, observationally. -/
inductive TickAction where
  | invokeStart
  | invokeStopAndAlert
  | alertUndefined
  | doNothing
  deriving DecidableEq, Repr

/-- One tick of the run/stop loop body: the `if/elif/elif` chain of
`start_stop_test_thread_function`. -/
def start_stop_tick (runFile stopFile : Bool) (st : Status) : TickAction :=
  let w := check_what_to_do_config runFile stopFile
  if w = WhatToDo.runTest ∧ st = Status.notRunning then .invokeStart
  else if w = WhatToDo.stopTest ∧ st ≠ Status.notRunning then .invokeStopAndAlert
  else if w = WhatToDo.undefinedIntent then .alertUndefined
  else .doNothing

/-! ## The controller's own operations as a transition system (claim C2) -/

/-- The controller's own mutating operations considered by claim C2. -/
inductive SetupOp where
  | setBias (name : String) (v : ℚ)
  | setTemp (celsius : ℚ)

/-- Effect of one operation on the state. -/
def applyOp : SetupOp → SetupState → Option SetupError × SetupState
  | .setBias n v, s => set_bias_voltage n v s
  | .setTemp c, s => set_temperature_set_point c s

/-- The restriction under which the amended claim C2 holds: requested
bias voltages at least `-UNBIASED_VOLTAGE_THRESHOLD` and requested
set-points strictly below `MAX_OPERATING_TEMPERATURE`. -/
def OpRestricted : SetupOp → Prop
  | .setBias _ v => -UNBIASED_VOLTAGE_THRESHOLD ≤ v
  | .setTemp c => c < MAX_OPERATING_TEMPERATURE

/-- States reachable from `s₀` by successful operations satisfying
`P` (a failing call leaves the state unchanged in every operation, so
restricting attention to successful steps loses no reachable state). -/
inductive ReachVia (P : SetupOp → Prop) (s₀ : SetupState) : SetupState → Prop
  | refl : ReachVia P s₀ s₀
  | step {s s' : SetupState} (op : SetupOp) :
      ReachVia P s₀ s → P op → applyOp op s = (none, s') → ReachVia P s₀ s'

/-- The safety invariant behind claim C2: whenever the chamber runs
with some slot biased, both the set-point and the temperature are
strictly below the maximum operating temperature. -/
def SafeInv (s : SetupState) : Prop :=
  s.isRunning = true → is_any_slot_biased s = true →
    s.setPoint < MAX_OPERATING_TEMPERATURE ∧
      s.temperature < MAX_OPERATING_TEMPERATURE

/-! ## Auxiliary definitions used in statements -/

/-- The state with all slot voltages negated, for the sign-symmetry
claim C10. -/
def negVolts (s : SetupState) : SetupState :=
  { s with volts := s.volts.map (fun p => (p.1, -p.2)) }

/-- The triple of identifying columns of a slot row. -/
def rowTriple (r : SlotRow) : String × String × ℤ :=
  (r.modelName, r.serialNumber, r.channelNumber)

/-- `rowKey` as a function of the identifying triple. -/
def tripleKey (t : String × String × ℤ) : String :=
  t.1 ++ "," ++ t.2.1 ++ "," ++ toString t.2.2

/-- The 16 (model, serial, channel) triples whose component values
pass the three set checks of `check_integrity_of_slots_df`. -/
def knownTriples : Finset (String × String × ℤ) :=
  ({"DT1419ET", "DT1470ET"} : Finset String) ×ˢ
    (({"139", "13398"} : Finset String) ×ˢ ({0, 1, 2, 3} : Finset ℤ))

/-! ## Concrete states and tables for witnesses and counterexamples -/

/-- Chamber running at room temperature with set-point 20 °C and both
slots unbiased: status is `warm`. -/
def warmState : SetupState :=
  { isRunning := true, temperature := 20, setPoint := 20,
    dryer := false, compressedAir := false,
    volts := [("A", 0), ("B", 0)] }

/-- Chamber running and cold (−20 °C, set-point −20 °C), slot
unbiased: status is `ready to operate`. -/
def readyState : SetupState :=
  { isRunning := true, temperature := -20, setPoint := -20,
    dryer := false, compressedAir := false,
    volts := [("A", 0)] }

/-- `readyState` with the slot biased at 100 V. -/
def readyBiasedState : SetupState :=
  { isRunning := true, temperature := -20, setPoint := -20,
    dryer := false, compressedAir := false,
    volts := [("A", 100)] }

/-- Chamber running and cold with the set-point exactly at the
maximum operating temperature of −18 °C. -/
def boundaryState : SetupState :=
  { isRunning := true, temperature := -20, setPoint := -18,
    dryer := false, compressedAir := false,
    volts := [("A", 0)] }

/-- Chamber off, warm, slot unbiased: status is `not running`. -/
def offState : SetupState :=
  { isRunning := false, temperature := 20, setPoint := 20,
    dryer := false, compressedAir := false,
    volts := [("A", 0)] }

/-- A nine-row slots table: a correct eight-row table plus a second
slot wired to the already-used physical channel (serial 139,
channel 0). -/
def dupSlotRows : List SlotRow :=
  [ { slotName := "slot1", modelName := "DT1419ET", serialNumber := "139",
      channelNumber := 0 },
    { slotName := "slot2", modelName := "DT1419ET", serialNumber := "139",
      channelNumber := 1 },
    { slotName := "slot3", modelName := "DT1419ET", serialNumber := "139",
      channelNumber := 2 },
    { slotName := "slot4", modelName := "DT1419ET", serialNumber := "139",
      channelNumber := 3 },
    { slotName := "slot5", modelName := "DT1470ET", serialNumber := "13398",
      channelNumber := 0 },
    { slotName := "slot6", modelName := "DT1470ET", serialNumber := "13398",
      channelNumber := 1 },
    { slotName := "slot7", modelName := "DT1470ET", serialNumber := "13398",
      channelNumber := 2 },
    { slotName := "slot8", modelName := "DT1470ET", serialNumber := "13398",
      channelNumber := 3 },
    { slotName := "slot9", modelName := "DT1419ET", serialNumber := "139",
      channelNumber := 0 } ]

end LgadSetup

namespace LgadSetup

/-! ## Helper lemmas -/

lemma statusFrom_eq_notRunning (r b : Bool) (t sp : ℚ) :
    statusFrom r t sp b = Status.notRunning ↔ r = false := by
  unfold statusFrom
  cases r <;> simp
  split_ifs <;> simp_all

lemma statusFrom_eq_ready (r b : Bool) (t sp : ℚ) :
    statusFrom r t sp b = Status.readyToOperate ↔
      r = true ∧ sp < MAX_OPERATING_TEMPERATURE ∧
        t < MAX_OPERATING_TEMPERATURE := by
  unfold statusFrom
  cases r <;> simp
  split_ifs <;> simp_all

lemma statusFrom_eq_coolingDown (r b : Bool) (t sp : ℚ) :
    statusFrom r t sp b = Status.coolingDown ↔
      r = true ∧ sp < MAX_OPERATING_TEMPERATURE ∧
        MAX_OPERATING_TEMPERATURE ≤ t ∧ b = false := by
  unfold statusFrom
  cases r <;> cases b <;> simp <;> split_ifs <;> simp_all

lemma statusFrom_eq_warm (r b : Bool) (t sp : ℚ) :
    statusFrom r t sp b = Status.warm ↔
      r = true ∧ MAX_OPERATING_TEMPERATURE ≤ sp ∧ b = false := by
  unfold statusFrom
  cases r <;> cases b <;> simp <;> split_ifs <;> simp_all

lemma statusFrom_eq_error (r b : Bool) (t sp : ℚ) :
    statusFrom r t sp b = Status.error ↔
      r = true ∧ b = true ∧
        (MAX_OPERATING_TEMPERATURE ≤ sp ∨ MAX_OPERATING_TEMPERATURE ≤ t) := by
  unfold statusFrom
  cases r <;> cases b <;> simp
  · split_ifs <;> simp
  constructor
  · intro h
    by_cases hsp : sp < MAX_OPERATING_TEMPERATURE
    · exact Or.inr (h hsp)
    · exact Or.inl (le_of_not_lt hsp)
  · intro h hsp
    rcases h with h | h
    · linarith
    · exact h

lemma updateVolts_map_fst (n : String) (v : ℚ) (l : List (String × ℚ)) :
    (updateVolts n v l).map Prod.fst = l.map Prod.fst := by
  unfold updateVolts
  induction l with
  | nil => rfl
  | cons p l ih =>
    simp only [List.map_cons, ih, List.cons.injEq, and_true]
    split <;> rfl

lemma slots_names_update (n : String) (v : ℚ) (s : SetupState) :
    slots_names { s with volts := updateVolts n v s.volts } = slots_names s := by
  unfold slots_names
  exact updateVolts_map_fst n v s.volts

lemma set_bias_voltage_success {n : String} {v : ℚ} {s s' : SetupState}
    (h : set_bias_voltage n v s = (none, s')) :
    s' = { s with volts := updateVolts n v s.volts } ∧ n ∈ slots_names s ∧
      (UNBIASED_VOLTAGE_THRESHOLD < v → status s = Status.readyToOperate) := by
  unfold set_bias_voltage at h
  split_ifs at h with h1 h2 h3 h4 h5 <;>
    simp_all [Prod.ext_iff]

lemma set_temperature_set_point_success {c : ℚ} {s s' : SetupState}
    (h : set_temperature_set_point c s = (none, s')) :
    s' = { s with setPoint := c } := by
  unfold set_temperature_set_point at h
  split_ifs at h <;> simp_all [Prod.ext_iff]

lemma is_any_slot_biased_update_le {n : String} {v : ℚ}
    (hv : |v| ≤ UNBIASED_VOLTAGE_THRESHOLD) (s : SetupState)
    (h : is_any_slot_biased { s with volts := updateVolts n v s.volts } = true) :
    is_any_slot_biased s = true := by
  unfold is_any_slot_biased at h ⊢
  unfold updateVolts at h
  simp only [List.any_eq_true, List.mem_map] at h
  obtain ⟨q, ⟨p, hp, hq⟩, hb⟩ := h
  simp only [List.any_eq_true]
  refine ⟨p, hp, ?_⟩
  by_cases hn : p.1 = n
  · exfalso
    rw [if_pos hn] at hq
    rw [← hq] at hb
    simp only [slotBiased, decide_eq_true_eq] at hb
    exact absurd hb (not_lt.mpr hv)
  · rw [if_neg hn] at hq
    rw [hq]
    exact hb

lemma safeInv_iff_not_error (s : SetupState) :
    SafeInv s ↔ status s ≠ Status.error := by
  unfold SafeInv status
  rw [Ne, statusFrom_eq_error]
  constructor
  · rintro h ⟨hr, hb, hor⟩
    obtain ⟨h1, h2⟩ := h hr hb
    rcases hor with hor | hor <;> linarith
  · intro h hr hb
    constructor
    · by_contra hc
      exact h ⟨hr, hb, Or.inl (le_of_not_lt hc)⟩
    · by_contra hc
      exact h ⟨hr, hb, Or.inr (le_of_not_lt hc)⟩

lemma safeInv_preserved {s s' : SetupState} {op : SetupOp}
    (hinv : SafeInv s) (hres : OpRestricted op)
    (hstep : applyOp op s = (none, s')) : SafeInv s' := by
  cases op with
  | setTemp c =>
    have hs' := set_temperature_set_point_success hstep
    subst hs'
    intro hr hb
    refine ⟨hres, ?_⟩
    exact (hinv hr hb).2
  | setBias n v =>
    obtain ⟨hs', hmem, hready⟩ := set_bias_voltage_success hstep
    subst hs'
    by_cases hv : UNBIASED_VOLTAGE_THRESHOLD < v
    · have hst := hready hv
      unfold status at hst
      rw [statusFrom_eq_ready] at hst
      intro _ _
      exact ⟨hst.2.1, hst.2.2⟩
    · intro hr hb
      have habs : |v| ≤ UNBIASED_VOLTAGE_THRESHOLD := by
        rw [abs_le]
        exact ⟨hres, le_of_not_lt hv⟩
      have hb' := is_any_slot_biased_update_le habs s hb
      exact hinv hr hb'

lemma safeInv_reach {s₀ s : SetupState} (h₀ : SafeInv s₀)
    (h : ReachVia OpRestricted s₀ s) : SafeInv s := by
  induction h with
  | refl => exact h₀
  | step op _ hres hstep ih => exact safeInv_preserved ih hres hstep

lemma lt_loopFuel_bound (t : ℚ) : t < 11 * (loopFuel t : ℚ) := by
  unfold loopFuel
  push_cast
  rcases le_or_lt t 0 with h | h
  · have h3 : (0 : ℚ) ≤ (t.num.toNat : ℚ) := by positivity
    linarith
  · have hnum : 0 < t.num := Rat.num_pos.mpr h
    have hden : (1 : ℚ) ≤ (t.den : ℚ) := by
      exact_mod_cast Nat.one_le_iff_ne_zero.mpr t.den_nz
    have h1 : t ≤ ((t.num : ℤ) : ℚ) := by
      conv_lhs => rw [← Rat.num_div_den t]
      exact div_le_self (by exact_mod_cast hnum.le) hden
    have h2 : ((t.num : ℤ) : ℚ) ≤ ((t.num.toNat : ℕ) : ℚ) := by
      exact_mod_cast Int.self_le_toNat _
    have h3 : (0 : ℚ) ≤ (t.num.toNat : ℚ) := by positivity
    linarith

lemma dryLoopAux_timedOut (hum : ℕ → ℚ) (pct timeout : ℚ)
    (hall : ∀ k, pct < hum k) :
    ∀ (fuel k : ℕ) (elapsed : ℚ), timeout < 11 * (fuel : ℚ) + elapsed →
      elapsed ≤ timeout →
      ∃ e, dryLoopAux hum pct timeout fuel k elapsed = .timedOut e ∧
        timeout < e ∧ e ≤ timeout + 11 := by
  intro fuel
  induction fuel with
  | zero =>
    intro k elapsed hfuel hk
    exfalso
    push_cast at hfuel
    linarith
  | succ f ih =>
    intro k elapsed hfuel hk
    by_cases htm : timeout < elapsed + 11
    · refine ⟨elapsed + 11, ?_, htm, by linarith⟩
      unfold dryLoopAux
      rw [if_neg (not_le.mpr (hall k)), if_pos htm]
    · obtain ⟨e, he, he1, he2⟩ := ih (k + 1) (elapsed + 11)
        (by push_cast at hfuel ⊢; linarith)
        (not_lt.mp htm)
      refine ⟨e, ?_, he1, he2⟩
      unfold dryLoopAux
      rw [if_neg (not_le.mpr (hall k)), if_neg htm]
      exact he

lemma zeroAllSlots_ok :
    ∀ (names : List String) (s : SetupState),
      (∀ n ∈ names, n ∈ slots_names s) →
      ∃ v', zeroAllSlots s names = (none, { s with volts := v' }) := by
  intro names
  induction names with
  | nil =>
    intro s _
    exact ⟨s.volts, rfl⟩
  | cons n ns ih =>
    intro s hmem
    have hn : n ∈ slots_names s := hmem n (by simp)
    have hstep : set_bias_voltage n 0 s =
        (none, { s with volts := updateVolts n 0 s.volts }) := by
      unfold set_bias_voltage
      rw [if_neg (by norm_num [UNBIASED_VOLTAGE_THRESHOLD]), if_pos hn]
    obtain ⟨v', hv'⟩ := ih { s with volts := updateVolts n 0 s.volts }
      (by
        intro m hm
        rw [slots_names_update]
        exact hmem m (by simp [hm]))
    refine ⟨v', ?_⟩
    unfold zeroAllSlots
    rw [hstep]
    exact hv'

lemma tripleKey_injOn_known :
    ∀ a ∈ knownTriples, ∀ b ∈ knownTriples,
      tripleKey a = tripleKey b → a = b := by
  decide

lemma rowTriple_mem_known {rows : List SlotRow}
    (h1 : (rows.map SlotRow.modelName).toFinset = {"DT1419ET", "DT1470ET"})
    (h2 : (rows.map SlotRow.serialNumber).toFinset = {"139", "13398"})
    (h3 : (rows.map SlotRow.channelNumber).toFinset = {0, 1, 2, 3}) :
    ∀ r ∈ rows, rowTriple r ∈ knownTriples := by
  intro r hr
  have hm : r.modelName ∈ ({"DT1419ET", "DT1470ET"} : Finset String) := by
    rw [← h1, List.mem_toFinset]
    exact List.mem_map_of_mem SlotRow.modelName hr
  have hs : r.serialNumber ∈ ({"139", "13398"} : Finset String) := by
    rw [← h2, List.mem_toFinset]
    exact List.mem_map_of_mem SlotRow.serialNumber hr
  have hc : r.channelNumber ∈ ({0, 1, 2, 3} : Finset ℤ) := by
    rw [← h3, List.mem_toFinset]
    exact List.mem_map_of_mem SlotRow.channelNumber hr
  unfold knownTriples rowTriple
  exact Finset.mem_product.mpr ⟨hm, Finset.mem_product.mpr ⟨hs, hc⟩⟩

lemma toFinset_map_eq_image {α β : Type} [DecidableEq α] [DecidableEq β]
    (f : α → β) (l : List α) :
    (l.map f).toFinset = l.toFinset.image f := by
  induction l with
  | nil => simp
  | cons a l ih => simp [ih]

lemma key_dedup_eq_triple_dedup {rows : List SlotRow}
    (h1 : (rows.map SlotRow.modelName).toFinset = {"DT1419ET", "DT1470ET"})
    (h2 : (rows.map SlotRow.serialNumber).toFinset = {"139", "13398"})
    (h3 : (rows.map SlotRow.channelNumber).toFinset = {0, 1, 2, 3}) :
    (rows.map rowKey).dedup.length = (rows.map rowTriple).dedup.length := by
  have hmap : rows.map rowKey = (rows.map rowTriple).map tripleKey := by
    rw [List.map_map]
    rfl
  rw [hmap, ← List.card_toFinset, ← List.card_toFinset, toFinset_map_eq_image]
  apply Finset.card_image_of_injOn
  intro a ha b hb heq
  rw [Finset.mem_coe, List.mem_toFinset, List.mem_map] at ha hb
  obtain ⟨ra, hra, rfl⟩ := ha
  obtain ⟨rb, hrb, rfl⟩ := hb
  exact tripleKey_injOn_known _ (rowTriple_mem_known h1 h2 h3 ra hra)
    _ (rowTriple_mem_known h1 h2 h3 rb hrb) heq

/-! ## Claim C1: interlock gate of `set_bias_voltage` -/

/-- Claim C1, counterexample: the claim demands that any voltage of
magnitude above the threshold is interlock-checked regardless of
sign; but `set_bias_voltage` compares the signed value, so asking for
−100 V while the status is `warm` (not `ready to operate`) is
forwarded to the channel instead of raising the interlock error. -/
theorem set_bias_negative_bypasses_interlock :
    status warmState = Status.warm ∧
    decide (Status.warm = Status.readyToOperate) = false ∧
    UNBIASED_VOLTAGE_THRESHOLD < |(-100 : ℚ)| ∧
    set_bias_voltage "A" (-100) warmState =
      (none, { warmState with volts := [("A", -100), ("B", 0)] }) := by
  refine ⟨by decide, by decide, by decide, by decide⟩

/-- Claim C1, amended: for a configured slot, the interlock gate of
`set_bias_voltage` applies only to voltages strictly above the signed
threshold `v > UNBIASED_VOLTAGE_THRESHOLD`; such a request raises the
interlock error exactly when the status is not `ready to operate` or
the temperature exceeds `MAX_OPERATING_TEMPERATURE`, and is forwarded
to the slot's channel otherwise.  Any other voltage — including
negative voltages of arbitrarily large magnitude — is forwarded
without any interlock check. -/
theorem set_bias_voltage_interlock_characterization
    (s : SetupState) (name : String) (v : ℚ) (hname : name ∈ slots_names s) :
    set_bias_voltage name v s =
      if UNBIASED_VOLTAGE_THRESHOLD < v ∧
          (status s ≠ Status.readyToOperate ∨
            MAX_OPERATING_TEMPERATURE < s.temperature)
      then (some SetupError.interlockViolation, s)
      else (none, { s with volts := updateVolts name v s.volts }) := by
  by_cases h1 : UNBIASED_VOLTAGE_THRESHOLD < v
  · by_cases h2 : status s = Status.readyToOperate
    · by_cases h3 : MAX_OPERATING_TEMPERATURE < s.temperature
      · simp [set_bias_voltage, h1, h2, h3, hname]
      · simp [set_bias_voltage, h1, h2, h3, hname]
    · simp [set_bias_voltage, h1, h2, hname]
  · simp [set_bias_voltage, h1, hname]

/-- Claim C1, witness: at `readyState` (cold chamber, cold set-point)
a request of 100 V on slot "A" passes the gate and is forwarded. -/
theorem set_bias_voltage_interlock_characterization_witness :
    set_bias_voltage "A" 100 readyState =
      (none, { readyState with volts := [("A", 100)] }) := by
  rw [set_bias_voltage_interlock_characterization readyState "A" 100 (by decide)]
  decide

/-! ## Claim C2: reachability of the `error` status -/

/-- Claim C2, counterexample: one controller call moves the status
from `warm` to `error`: `set_bias_voltage("A", -100)` is accepted
(the signed comparison bypasses the interlock) and afterwards a slot
is biased while the status is `error`, not `ready to operate`. -/
theorem controller_op_reaches_error :
    status warmState = Status.warm ∧
    decide (Status.warm = Status.error) = false ∧
    applyOp (SetupOp.setBias "A" (-100)) warmState =
      (none, { warmState with volts := [("A", -100), ("B", 0)] }) ∧
    status { warmState with volts := [("A", -100), ("B", 0)] } = Status.error ∧
    is_any_slot_biased { warmState with volts := [("A", -100), ("B", 0)] } = true := by
  refine ⟨by decide, by decide, by decide, by decide, by decide⟩

/-- Claim C2, amended: restricted to requested bias voltages of at
least `-UNBIASED_VOLTAGE_THRESHOLD` and requested set-points strictly
below `MAX_OPERATING_TEMPERATURE`, no sequence of successful
`set_bias_voltage` and `temperature_set_point` calls starting from a
non-`error` status reaches the `error` status (measured voltages
tracking the set values, temperature unchanged); moreover in every
such reachable state, a biased slot while the chamber runs implies
status `ready to operate`.  Unrestricted, the property is false
(`controller_op_reaches_error`). -/
theorem restricted_ops_preserve_safety (s₀ s : SetupState)
    (h₀ : status s₀ ≠ Status.error) (h : ReachVia OpRestricted s₀ s) :
    status s ≠ Status.error ∧
      (s.isRunning = true → is_any_slot_biased s = true →
        status s = Status.readyToOperate) := by
  have hinv := safeInv_reach ((safeInv_iff_not_error s₀).mpr h₀) h
  refine ⟨(safeInv_iff_not_error s).mp hinv, ?_⟩
  intro hr hb
  obtain ⟨hsp, ht⟩ := hinv hr hb
  unfold status
  rw [statusFrom_eq_ready]
  exact ⟨hr, hsp, ht⟩

/-- Claim C2, witness: from `readyState`, one restricted step that
biases slot "A" at 100 V keeps the status `ready to operate`. -/
theorem restricted_ops_preserve_safety_witness :
    status readyBiasedState = Status.readyToOperate := by
  have h := restricted_ops_preserve_safety readyState readyBiasedState
    (by decide)
    (ReachVia.step (SetupOp.setBias "A" 100) ReachVia.refl
      (by norm_num [OpRestricted, UNBIASED_VOLTAGE_THRESHOLD]) (by decide))
  exact h.2 (by decide) (by decide)

/-! ## Claim C3: the `status` decision table -/

/-- Claim C3, counterexample: with the chamber running, set-point
exactly −18 °C and temperature −20 °C (both `≤ MAX_OPERATING_TEMPERATURE`,
boundary included), the claim demands `ready to operate`, but
`status` uses strict comparisons and returns `warm`. -/
theorem status_boundary_set_point_not_ready :
    boundaryState.isRunning = true ∧
    boundaryState.setPoint ≤ MAX_OPERATING_TEMPERATURE ∧
    boundaryState.temperature ≤ MAX_OPERATING_TEMPERATURE ∧
    status boundaryState = Status.warm ∧
    decide (Status.warm = Status.readyToOperate) = false := by
  refine ⟨by decide, by decide, by decide, by decide, by decide⟩

/-- Claim C3, amended: `status` is a pure function of exactly
(chamber running, temperature, set-point, any-slot-biased), the
mapping is exhaustive over the five statuses, and the table uses
strict comparisons: `ready to operate` requires set-point and
temperature strictly below `MAX_OPERATING_TEMPERATURE`; at the
boundary (equality) the status is `warm`, `cooling down` or `error`
instead. -/
theorem status_pure_function_characterization :
    (∀ s : SetupState, status s =
      statusFrom s.isRunning s.temperature s.setPoint (is_any_slot_biased s)) ∧
    (∀ (r b : Bool) (t sp : ℚ),
      (statusFrom r t sp b = Status.notRunning ↔ r = false) ∧
      (statusFrom r t sp b = Status.readyToOperate ↔
        r = true ∧ sp < MAX_OPERATING_TEMPERATURE ∧
          t < MAX_OPERATING_TEMPERATURE) ∧
      (statusFrom r t sp b = Status.coolingDown ↔
        r = true ∧ sp < MAX_OPERATING_TEMPERATURE ∧
          MAX_OPERATING_TEMPERATURE ≤ t ∧ b = false) ∧
      (statusFrom r t sp b = Status.warm ↔
        r = true ∧ MAX_OPERATING_TEMPERATURE ≤ sp ∧ b = false) ∧
      (statusFrom r t sp b = Status.error ↔
        r = true ∧ b = true ∧
          (MAX_OPERATING_TEMPERATURE ≤ sp ∨ MAX_OPERATING_TEMPERATURE ≤ t))) :=
  ⟨fun _ => rfl, fun r b t sp =>
    ⟨statusFrom_eq_notRunning r b t sp, statusFrom_eq_ready r b t sp,
      statusFrom_eq_coolingDown r b t sp, statusFrom_eq_warm r b t sp,
      statusFrom_eq_error r b t sp⟩⟩

/-- Claim C3, witness: the characterization applied at the boundary
inputs (running, set-point −18 °C, temperature −20 °C, unbiased). -/
theorem status_pure_function_characterization_witness :
    statusFrom true (-20) (-18) false = Status.warm :=
  ((status_pure_function_characterization.2 true false (-20) (-18)).2.2.2.1).mpr
    ⟨rfl, by norm_num [MAX_OPERATING_TEMPERATURE], rfl⟩

/-! ## Claim C4: the set-point interlock -/

/-- Claim C4, confirmed: setting the temperature set-point raises the
interlock error exactly when the requested value exceeds
`MAX_OPERATING_TEMPERATURE` while some slot is biased above
`UNBIASED_VOLTAGE_THRESHOLD` in magnitude; when it raises, the state
— in particular the chamber set-point — is unchanged, and on success
the set-point becomes the requested value. -/
theorem set_point_interlock_characterization (c : ℚ) (s : SetupState) :
    ((set_temperature_set_point c s).1 = some SetupError.interlockViolation ↔
      MAX_OPERATING_TEMPERATURE < c ∧ is_any_slot_biased s = true) ∧
    ((set_temperature_set_point c s).1 ≠ none →
      set_temperature_set_point c s = (some SetupError.interlockViolation, s)) ∧
    ((set_temperature_set_point c s).1 = none →
      (set_temperature_set_point c s).2 = { s with setPoint := c }) := by
  unfold set_temperature_set_point
  split_ifs with h <;> simp_all

/-- Claim C4, witness: requesting 0 °C while slot "A" is biased at
100 V raises the interlock error and leaves the state unchanged. -/
theorem set_point_interlock_characterization_witness :
    set_temperature_set_point 0 readyBiasedState =
      (some SetupError.interlockViolation, readyBiasedState) := by
  have h := set_point_interlock_characterization 0 readyBiasedState
  have h1 : (set_temperature_set_point 0 readyBiasedState).1 =
      some SetupError.interlockViolation :=
    h.1.mpr ⟨by decide, by decide⟩
  exact h.2.1 (by rw [h1]; simp)

/-! ## Claim C5: `start` precondition -/

/-- Claim C5, confirmed: from any state whose status is not
`not running`, `start` fails with the invalid-transition error before
any hardware write: the returned state is the initial state, so the
dryer, compressed air, set-point, running flag and every slot voltage
are unchanged. -/
theorem start_invalid_transition (hum temp : ℕ → ℚ) (pct tH tC : ℚ)
    (s : SetupState) (h : status s ≠ Status.notRunning) :
    start hum temp pct tH tC s = (some SetupError.invalidTransition, s) := by
  unfold start
  rw [if_pos h]

/-- Claim C5, witness: `start` from `warmState` (status `warm`). -/
theorem start_invalid_transition_witness :
    start (fun _ => 0) (fun _ => 0) 20 600 900 warmState =
      (some SetupError.invalidTransition, warmState) :=
  start_invalid_transition (fun _ => 0) (fun _ => 0) 20 600 900 warmState
    (by decide)

/-! ## Claim C6: `start` under persistently high humidity -/

/-- Claim C6, counterexample: with the measured humidity constantly
equal to the threshold (20 %RH — never dropping below it), the claim
demands a timeout after `humidityTimeoutSec` (50 s) with the
set-point never lowered; instead the drying loop exits at once (its
condition is strict), the set-point is lowered to
`NORMAL_OPERATING_TEMPERATURE`, and the failure is the cooling
timeout at 34 s of the cooling phase (timeout 30 s), not the humidity
timeout. -/
theorem start_boundary_humidity_not_timed_out :
    start (fun _ => 20) (fun _ => 20) 20 50 30 offState =
      (some (SetupError.coolingTimeout 34),
        { isRunning := true, temperature := 20,
          setPoint := NORMAL_OPERATING_TEMPERATURE,
          dryer := true, compressedAir := true, volts := [("A", 0)] }) ∧
    NORMAL_OPERATING_TEMPERATURE = -20 := by
  constructor
  · norm_num [start, set_temperature_set_point, zeroAllSlots, set_bias_voltage,
      dryLoopAux, coolLoopAux, loopFuel, status, statusFrom, is_any_slot_biased,
      slotBiased, slots_names, updateVolts, offState, MAX_OPERATING_TEMPERATURE,
      UNBIASED_VOLTAGE_THRESHOLD, NORMAL_OPERATING_TEMPERATURE]
  · rfl

/-- Claim C6, amended: if every humidity reading stays strictly above
`humidityBeforeCooldownPct`, then `start` from a `not running`,
unbiased state fails with the humidity timeout at an elapsed time in
`(humidityTimeoutSec, humidityTimeoutSec + 11]` — within one 11 s
poll interval of the timeout — and the set-point is never lowered to
the standby temperature: it remains at the room-temperature value
20 °C set at the beginning of the sequence. -/
theorem start_humidity_timeout (hum temp : ℕ → ℚ) (pct tH tC : ℚ)
    (s : SetupState) (hst : status s = Status.notRunning)
    (hb : is_any_slot_biased s = false) (htH : 0 ≤ tH)
    (hhum : ∀ k, pct < hum k) :
    ∃ e, (start hum temp pct tH tC s).1 = some (SetupError.humidityTimeout e) ∧
      tH < e ∧ e ≤ tH + 11 ∧ (start hum temp pct tH tC s).2.setPoint = 20 := by
  obtain ⟨e, he, he1, he2⟩ := dryLoopAux_timedOut hum pct tH hhum
    (loopFuel tH) 0 0 (by simpa using lt_loopFuel_bound tH) htH
  have hset : set_temperature_set_point 20
      { s with dryer := true, compressedAir := true } =
      (none, { s with dryer := true, compressedAir := true, setPoint := 20 }) := by
    unfold set_temperature_set_point
    rw [if_neg]
    rintro ⟨-, hx⟩
    rw [show is_any_slot_biased { s with dryer := true, compressedAir := true } =
      is_any_slot_biased s from rfl, hb] at hx
    exact Bool.noConfusion hx
  obtain ⟨v3, hz⟩ := zeroAllSlots_ok
    (slots_names { s with dryer := true, compressedAir := true, setPoint := 20 })
    { s with dryer := true, compressedAir := true, setPoint := 20 }
    (fun n hn => hn)
  refine ⟨e, ?_, he1, he2, ?_⟩ <;>
    · unfold start
      rw [if_neg (by simp [hst]), hset]
      simp only []
      rw [hz]
      simp only []
      rw [he]

/-- Claim C6, witness: humidity constantly 30 %RH against a threshold
of 20 %RH with a 50 s humidity timeout. -/
theorem start_humidity_timeout_witness :
    ∃ e, (start (fun _ => 30) (fun _ => 20) 20 50 900 offState).1 =
        some (SetupError.humidityTimeout e) ∧
      50 < e ∧ e ≤ 50 + 11 ∧
      (start (fun _ => 30) (fun _ => 20) 20 50 900 offState).2.setPoint = 20 :=
  start_humidity_timeout (fun _ => 30) (fun _ => 20) 20 50 900 offState
    (by decide) (by decide) (by norm_num) (fun k => by norm_num)

/-! ## Claim C7: unknown slot names -/

/-- Claim C7, counterexample: the claim demands the unknown-slot
error for every voltage and status; but for an unknown slot with
10 V requested while the status is `warm`, the interlock check runs
first and the interlock error is raised instead. -/
theorem unknown_slot_masked_by_interlock :
    ((slots_names warmState).contains "X") = false ∧
    set_bias_voltage "X" 10 warmState =
      (some SetupError.interlockViolation, warmState) ∧
    decide (SetupError.interlockViolation = SetupError.unknownSlot) = false := by
  refine ⟨by decide, by decide, by decide⟩

/-- Claim C7, amended: for a slot name outside the configured slot
set, `set_bias_voltage` raises the unknown-slot error whenever the
interlock gate passes — that is, for every voltage at most the
threshold, and for voltages above the threshold whenever the status
is `ready to operate` and the temperature is at most
`MAX_OPERATING_TEMPERATURE`; otherwise the interlock error is
reported first. -/
theorem unknown_slot_when_gate_passes (s : SetupState) (name : String)
    (v : ℚ) (hname : name ∉ slots_names s)
    (hgate : v ≤ UNBIASED_VOLTAGE_THRESHOLD ∨
      (status s = Status.readyToOperate ∧
        s.temperature ≤ MAX_OPERATING_TEMPERATURE)) :
    set_bias_voltage name v s = (some SetupError.unknownSlot, s) := by
  by_cases h1 : UNBIASED_VOLTAGE_THRESHOLD < v
  · rcases hgate with hg | ⟨hg1, hg2⟩
    · exact absurd h1 (not_lt.mpr hg)
    · simp [set_bias_voltage, h1, hg1, not_lt.mpr hg2, hname]
  · simp [set_bias_voltage, h1, hname]

/-- Claim C7, witness: an unknown slot with a request of 0 V. -/
theorem unknown_slot_when_gate_passes_witness :
    set_bias_voltage "X" 0 warmState =
      (some SetupError.unknownSlot, warmState) :=
  unknown_slot_when_gate_passes warmState "X" 0 (by decide)
    (Or.inl (by decide))

/-! ## Claim C8: slot-table validation -/

/-- Claim C8, counterexample: `dupSlotRows` — a correct eight-row
table plus a ninth slot wired to the already-used physical channel
(serial 139, channel 0) — passes `check_integrity_of_slots_df`
(the distinct-triple count is still 8), yet it does not partition the
physical channels: the (model, serial, channel) triples are not
unique across rows. -/
theorem slots_table_duplicate_channel_accepted :
    check_integrity_of_slots_df dupSlotRows ∧
    decide (slots_partition_spec dupSlotRows) = false := by
  refine ⟨by decide, by decide⟩

/-- Claim C8, amended: `check_integrity_of_slots_df` accepts a table
exactly when the model-name set is {DT1419ET, DT1470ET}, the
serial-number set is {139, 13398}, the channel set is {0, 1, 2, 3},
and the rows carry exactly 8 distinct (model, serial, channel)
triples; it does not require the triples to be unique across rows nor
the channel set to be complete per supply, so acceptance is necessary
but not sufficient for partitioning the 8 physical channels. -/
theorem check_integrity_characterization (rows : List SlotRow) :
    check_integrity_of_slots_df rows ↔
      ((rows.map SlotRow.modelName).toFinset = {"DT1419ET", "DT1470ET"} ∧
       (rows.map SlotRow.serialNumber).toFinset = {"139", "13398"} ∧
       (rows.map SlotRow.channelNumber).toFinset = {0, 1, 2, 3} ∧
       (rows.map rowTriple).dedup.length = 8) := by
  unfold check_integrity_of_slots_df
  constructor
  · rintro ⟨h1, h2, h3, h4⟩
    exact ⟨h1, h2, h3, by rw [← key_dedup_eq_triple_dedup h1 h2 h3]; exact h4⟩
  · rintro ⟨h1, h2, h3, h4⟩
    exact ⟨h1, h2, h3, by rw [key_dedup_eq_triple_dedup h1 h2 h3]; exact h4⟩

/-- Claim C8, witness: the characterization applied to `dupSlotRows`,
whose four structural conditions hold by computation. -/
theorem check_integrity_characterization_witness :
    (dupSlotRows.map rowTriple).dedup.length = 8 :=
  ((check_integrity_characterization dupSlotRows).mp (by decide)).2.2.2

/-! ## Claim C9: the run/stop decision loop -/

/-- Claim C9, counterexample: with both marker files present and
status `not running`, the claim demands an ambiguity alert with
nothing invoked; but `check_what_to_do_config` tests the run file
first, so the tick invokes `start()`. -/
theorem both_marker_files_run_wins :
    start_stop_tick true true Status.notRunning = TickAction.invokeStart ∧
    decide (TickAction.invokeStart = TickAction.alertUndefined) = false := by
  refine ⟨by decide, by decide⟩

/-- Claim C9, amended: the run marker file takes precedence.  A tick
invokes `start()` iff the run file is present and status is
`not running`; it invokes `stop()` (alerting) iff the run file is
absent, the stop file present and status is not `not running`; it
alerts ambiguity iff neither file is present; in the remaining cases
(run file present with the setup already running, or stop file
effective-but-status `not running`) it does nothing — in particular,
simultaneous presence of both files behaves exactly as the run file
alone, not as an ambiguity. -/
theorem start_stop_tick_characterization :
    ∀ (runFile stopFile : Bool) (st : Status),
      (start_stop_tick runFile stopFile st = TickAction.invokeStart ↔
        runFile = true ∧ st = Status.notRunning) ∧
      (start_stop_tick runFile stopFile st = TickAction.invokeStopAndAlert ↔
        runFile = false ∧ stopFile = true ∧ st ≠ Status.notRunning) ∧
      (start_stop_tick runFile stopFile st = TickAction.alertUndefined ↔
        runFile = false ∧ stopFile = false) ∧
      (start_stop_tick runFile stopFile st = TickAction.doNothing ↔
        ((runFile = true ∧ st ≠ Status.notRunning) ∨
          (runFile = false ∧ stopFile = true ∧ st = Status.notRunning))) := by
  intro runFile stopFile st
  cases runFile <;> cases stopFile <;> cases st <;> decide

/-- Claim C9, witness: the characterization applied with neither
marker file present. -/
theorem start_stop_tick_characterization_witness :
    start_stop_tick false false Status.warm = TickAction.alertUndefined :=
  ((start_stop_tick_characterization false false Status.warm).2.2.1).mpr ⟨rfl, rfl⟩

/-! ## Claim C10: sign symmetry of the biased test -/

/-- Claim C10, confirmed: the biased test computes the magnitude
`(v²)^½ = |v|`, so it is symmetric in the sign of the measured
voltage; consequently negating every measured voltage changes neither
the aggregate biased test, nor the status derivation, nor whether the
set-point interlock fires. -/
theorem biased_test_sign_symmetric :
    (∀ v : ℚ, slotBiased v = slotBiased (-v) ∧
      (slotBiased v = true ↔ UNBIASED_VOLTAGE_THRESHOLD < |v|)) ∧
    (∀ s : SetupState,
      is_any_slot_biased (negVolts s) = is_any_slot_biased s ∧
      status (negVolts s) = status s ∧
      (∀ c : ℚ, (set_temperature_set_point c (negVolts s)).1 =
        (set_temperature_set_point c s).1)) := by
  have hslot : ∀ v : ℚ, slotBiased (-v) = slotBiased v := by
    intro v
    simp [slotBiased, abs_neg]
  have hany : ∀ s : SetupState,
      is_any_slot_biased (negVolts s) = is_any_slot_biased s := by
    intro s
    unfold is_any_slot_biased negVolts
    simp only [List.any_map]
    congr 1
    funext p
    exact hslot p.2
  refine ⟨fun v => ⟨(hslot v).symm, by simp [slotBiased]⟩, fun s => ⟨hany s, ?_, ?_⟩⟩
  · show statusFrom s.isRunning s.temperature s.setPoint
      (is_any_slot_biased (negVolts s)) = status s
    rw [hany]
    rfl
  · intro c
    unfold set_temperature_set_point
    simp only [hany]
    split_ifs <;> rfl

/-- Claim C10, witness: sign symmetry at ±100 V. -/
theorem biased_test_sign_symmetric_witness :
    slotBiased (-100) = slotBiased 100 :=
  (biased_test_sign_symmetric.1 100).1.symm

end LgadSetup
